import Mathlib

/-!
Verification of the ibkr-bridge session and process reliability layer.

Shallow embedding of:
- `IbkrAuthService.heartbeat` / `logout` / `login`
  (src/src/infrastructure/ibkr-auth-service.ts)
- `IbkrSessionManager` heartbeat tick / `triggerReauth` / `waitForReauth`
  (src/unnamed/part_021)
- `IbkrGatewayManager.handleUnexpectedExit` / `restart`
  (src/src/infrastructure/ibkr-gateway-manager.ts)

Dates are modelled as epoch-millisecond integers.  Optional wire fields are
`Option`s; JavaScript `??` is `Option.getD` / `Option.orElse`, and JavaScript
truthiness tests on optional booleans (`if (x.flag)`) are `Option.getD false`.
-/

/-- Status enum `SessionStatus` from src/unnamed/part_026. -/
inductive SessionStatus where
  | disconnected
  | authenticating
  | awaiting_totp
  | authenticated
  | expired
deriving DecidableEq, Repr

/-- The TS string literal of each status (used in error messages). -/
def SessionStatus.name : SessionStatus → String
  | .disconnected => "disconnected"
  | .authenticating => "authenticating"
  | .awaiting_totp => "awaiting_totp"
  | .authenticated => "authenticated"
  | .expired => "expired"

/-- Record `Session` from src/unnamed/part_026 (timestamps as epoch ms). -/
structure Session where
  status : SessionStatus
  authenticatedAt : Option Int := none
  expiresAt : Option Int := none
  lastHeartbeat : Option Int := none
deriving DecidableEq, Repr

/-- Patch type modelling `Partial<Session>`, the argument of `SessionRepository.updateSession`. -/
structure SessionPatch where
  status : Option SessionStatus := none
  authenticatedAt : Option Int := none
  expiresAt : Option Int := none
  lastHeartbeat : Option Int := none
deriving DecidableEq, Repr

/-- Method `updateSession` of the in-memory repository (src/unnamed/part_018):
`this.session = { ...this.session, ...update }` — fields present in the
patch override, absent fields are kept. -/
def updateSession (s : Session) (p : SessionPatch) : Session :=
  { status := p.status.getD s.status
    authenticatedAt := (p.authenticatedAt.orElse fun _ => s.authenticatedAt)
    expiresAt := (p.expiresAt.orElse fun _ => s.expiresAt)
    lastHeartbeat := (p.lastHeartbeat.orElse fun _ => s.lastHeartbeat) }

/-- Method `clearSession` of the repository: the session becomes `\x7b status: 'disconnected' \x7d`. -/
def clearSession : Session := { status := .disconnected }

/-- Nested `iserver.authStatus` block of `TickleResponse` (src/unnamed/part_027). -/
structure TickleAuthStatus where
  authenticated : Option Bool := none
  competing : Option Bool := none
  connected : Option Bool := none
deriving DecidableEq, Repr

/-- Nested `iserver` block of `TickleResponse`. -/
structure TickleIserver where
  authStatus : Option TickleAuthStatus := none
deriving DecidableEq, Repr

/-- Record `TickleResponse` (src/unnamed/part_027): all fields optional on the wire. -/
structure TickleResponse where
  ssoExpires : Option Int := none
  collission : Option Bool := none
  iserver : Option TickleIserver := none
deriving DecidableEq, Repr

/-- Record `HeartbeatResult` (src/unnamed/part_026). -/
structure HeartbeatResult where
  valid : Bool
  ssoExpires : Option Int := none
  competing : Bool
deriving DecidableEq, Repr

namespace IbkrAuthService

/-- Constant `YEAR_2000_MS` in `heartbeat` (ibkr-auth-service.ts line 282). -/
def YEAR_2000_MS : Int := 946684800000

/-- Expiry computation of `heartbeat` (ibkr-auth-service.ts lines 276-285):
a positive `ssoExpires` below the year-2000 threshold is a relative duration
added to `now`; at or above, it is the absolute timestamp; non-positive or
absent values leave the expiry unset. -/
def computeSsoExpires (now : Int) (r : TickleResponse) : Option Int :=
  match r.ssoExpires with
  | some v =>
      if v > 0 then
        if v < YEAR_2000_MS then some (now + v) else some v
      else none
  | none => none

/-- Field read `response.iserver?.authStatus?.authenticated ?? true` (line 288). -/
def tickleAuthenticated (r : TickleResponse) : Bool :=
  ((r.iserver.bind TickleIserver.authStatus).bind TickleAuthStatus.authenticated).getD true

/-- Field read `response.iserver?.authStatus?.competing ?? response.collission ?? false` (line 289). -/
def tickleCompeting (r : TickleResponse) : Bool :=
  (((r.iserver.bind TickleIserver.authStatus).bind TickleAuthStatus.competing).orElse
    (fun _ => r.collission)).getD false

/-- Expiry test `ssoExpires ? ssoExpires <= now : false` (line 292). -/
def ssoExpired (now : Int) (r : TickleResponse) : Bool :=
  match computeSsoExpires now r with
  | some e => decide (e ≤ now)
  | none => false

/-- Method `IbkrAuthService.heartbeat` (ibkr-auth-service.ts lines 268-332) as a
function of the tickle call's outcome (`none` = network/transport failure),
the current time and the stored session.  Returns the updated session and
the `HeartbeatResult`. -/
def heartbeat (resp : Option TickleResponse) (now : Int) (s : Session) :
    Session × HeartbeatResult :=
  match resp with
  | none =>
      -- catch branch (lines 318-331): update only lastHeartbeat, report invalid
      (updateSession s { lastHeartbeat := some now },
       { valid := false, competing := false })
  | some r =>
      let s1 := updateSession s { lastHeartbeat := some now }
      let expires := computeSsoExpires now r
      let isAuthenticated := tickleAuthenticated r
      let isCompeting := tickleCompeting r
      let expired := ssoExpired now r
      let valid := isAuthenticated && !expired
      let s2 := if !valid then updateSession s1 { status := some .expired } else s1
      (s2, { valid := valid, ssoExpires := expires, competing := isCompeting })

/-- Claim-side reading of the `competing` field as the spec words it: the
logical OR of the nested flag and the top-level legacy flag (each defaulted
to false when absent).  Written from the spec, to be compared with
`tickleCompeting`, which is written from the source. -/
def competingOrSpec (r : TickleResponse) : Bool :=
  ((r.iserver.bind TickleIserver.authStatus).bind TickleAuthStatus.competing).getD false
    || r.collission.getD false

/-- Method `IbkrAuthService.logout` (ibkr-auth-service.ts lines 334-337):
`await this.client.post('/v1/api/logout'); this.sessionRepo.clearSession();`.
The argument is the outcome of the POST; when it throws, the error
propagates before `clearSession` runs. -/
def logout (postOutcome : Except Unit Unit) (s : Session) :
    Session × Except Unit Unit :=
  match postOutcome with
  | .ok _ => (clearSession, .ok ())
  | .error e => (s, .error e)

end IbkrAuthService

section HeartbeatTheorems

open IbkrAuthService

/-- Claim C2: for every successful tickle response, `heartbeat` returns
`valid = authenticated && !(computed expiry ≤ now)`; `authenticated` is read
from the nested `iserver.authStatus.authenticated` field when present and
defaults to true when the nested auth-status block is entirely absent. -/
theorem heartbeat_valid_formula (r : TickleResponse) (now : Int) (s : Session) :
    (heartbeat (some r) now s).2.valid = (tickleAuthenticated r && !(ssoExpired now r))
    ∧ (r.iserver.bind TickleIserver.authStatus = none → tickleAuthenticated r = true)
    ∧ (∀ a b, r.iserver.bind TickleIserver.authStatus = some a →
        a.authenticated = some b → tickleAuthenticated r = b) := by
  refine ⟨rfl, ?_, ?_⟩
  · intro h
    simp [tickleAuthenticated, h]
  · intro a b ha hb
    simp [tickleAuthenticated, ha, hb]

/-- Witness for `heartbeat_valid_formula` at a concrete response whose nested
block is absent while the expiry is in the future. -/
theorem heartbeat_valid_formula_witness :
    (heartbeat (some { ssoExpires := some 5000 }) 100
      { status := .authenticated }).2.valid = true := by
  have h := heartbeat_valid_formula { ssoExpires := some 5000 } 100
    { status := .authenticated }
  have ha : tickleAuthenticated { ssoExpires := some 5000 } = true :=
    h.2.1 rfl
  rw [h.1, ha]
  decide

/-- Claim C3: for a positive `ssoExpires` value, `heartbeat` applies the
year-2000 heuristic: below the threshold the value is relative and the
computed expiry is `now + v`; at or above it is the absolute timestamp. -/
theorem heartbeat_ssoExpires_heuristic (r : TickleResponse) (v now : Int)
    (s : Session) (hv : r.ssoExpires = some v) (hpos : 0 < v) :
    (v < YEAR_2000_MS →
      (heartbeat (some r) now s).2.ssoExpires = some (now + v))
    ∧ (YEAR_2000_MS ≤ v →
      (heartbeat (some r) now s).2.ssoExpires = some v) := by
  constructor
  · intro hlt
    simp [heartbeat, computeSsoExpires, hv, hpos, hlt]
  · intro hge
    simp [heartbeat, computeSsoExpires, hv, hpos, not_lt.mpr hge]

/-- Witness for `heartbeat_ssoExpires_heuristic`: `ssoExpires = 5000`
(relative) gives `T + 5000`; `ssoExpires = 1700000000000` (absolute) gives
the literal value. -/
theorem heartbeat_ssoExpires_heuristic_witness :
    (heartbeat (some { ssoExpires := some 5000 }) 1000
      { status := .authenticated }).2.ssoExpires = some 6000
    ∧ (heartbeat (some { ssoExpires := some 1700000000000 }) 1000
      { status := .authenticated }).2.ssoExpires = some 1700000000000 := by
  constructor
  · have h := (heartbeat_ssoExpires_heuristic { ssoExpires := some 5000 }
      5000 1000 { status := .authenticated } rfl (by decide)).1 (by decide)
    rw [h]
    norm_num
  · have h := (heartbeat_ssoExpires_heuristic
      { ssoExpires := some 1700000000000 } 1700000000000 1000
      { status := .authenticated } rfl (by decide)).2 (by decide)
    rw [h]

/-- Claim C4, counterexample: the claim reads `competing` as the logical OR of
the nested flag and the legacy `collission` flag.  At a response whose nested
flag is present and false while the legacy flag is true, the OR is true but
the code (nullish coalescing) reports `competing = false`. -/
theorem heartbeat_competing_not_or :
    let r : TickleResponse :=
      { collission := some true
        iserver := some { authStatus := some { competing := some false } } }
    competingOrSpec r = true
    ∧ (heartbeat (some r) 0 { status := .authenticated }).2.competing = false := by
  constructor <;> rfl

/-- Claim C4, amended: the `competing` result is the nested `iserver.authStatus.competing`
field whenever that field is present (even if false); only when it is absent
does the legacy `collission` flag apply, defaulting to false when both are
absent.  A present-but-false nested flag masks a true legacy flag. -/
theorem heartbeat_competing_coalesce (r : TickleResponse) (now : Int) (s : Session) :
    (heartbeat (some r) now s).2.competing = tickleCompeting r
    ∧ (∀ a b, r.iserver.bind TickleIserver.authStatus = some a →
        a.competing = some b → tickleCompeting r = b)
    ∧ ((r.iserver.bind TickleIserver.authStatus).bind TickleAuthStatus.competing = none →
        tickleCompeting r = r.collission.getD false) := by
  refine ⟨rfl, ?_, ?_⟩
  · intro a b ha hb
    simp [tickleCompeting, ha, hb, Option.orElse]
  · intro h
    simp [tickleCompeting, h, Option.orElse]

/-- Witness for `heartbeat_competing_coalesce`: nested flag false and legacy
flag true yields `competing = false`. -/
theorem heartbeat_competing_coalesce_witness :
    (heartbeat (some
      { collission := some true
        iserver := some { authStatus := some { competing := some false } } })
      0 { status := .authenticated }).2.competing = false := by
  have h := heartbeat_competing_coalesce
    { collission := some true
      iserver := some { authStatus := some { competing := some false } } }
    0 { status := .authenticated }
  rw [h.1]
  exact h.2.1 { competing := some false } false rfl rfl

/-- Claim C5: on a network/transport failure of the tickle call, `heartbeat`
returns `{valid := false, competing := false}`, sets only `lastHeartbeat` to
the attempt time, and leaves status, `authenticatedAt` and `expiresAt`
unchanged; in particular the status is not set to `expired`. -/
theorem heartbeat_network_failure (now : Int) (s : Session) :
    (heartbeat none now s).1.status = s.status
    ∧ (heartbeat none now s).1.authenticatedAt = s.authenticatedAt
    ∧ (heartbeat none now s).1.expiresAt = s.expiresAt
    ∧ (heartbeat none now s).1.lastHeartbeat = some now
    ∧ (heartbeat none now s).2 = { valid := false, ssoExpires := none, competing := false } := by
  refine ⟨rfl, rfl, rfl, rfl, rfl⟩

end HeartbeatTheorems

section LogoutTheorems

open IbkrAuthService

/-- Claim C9, counterexample: the claim says `logout()` clears the local
session state regardless of the gateway call's outcome.  When the logout
POST fails, the code propagates the error before `clearSession()` runs: an
authenticated session is left entirely intact. -/
theorem logout_failure_does_not_clear :
    let s : Session :=
      { status := .authenticated, authenticatedAt := some 5, lastHeartbeat := some 7 }
    (logout (.error ()) s).1 = s
    ∧ (logout (.error ()) s).1 ≠ clearSession
    ∧ (logout (.error ()) s).2 = .error () := by
  refine ⟨rfl, by decide, rfl⟩

/-- Claim C9, amended: `logout()` clears the local session state (reset to
`disconnected`, timestamps removed) exactly when the gateway logout call
succeeds; when the call fails, the error propagates and the session state
is left unchanged. -/
theorem logout_clears_on_success (s : Session) :
    (logout (.ok ()) s).1 = clearSession
    ∧ (logout (.ok ()) s).2 = .ok ()
    ∧ (logout (.error ()) s).1 = s
    ∧ (logout (.error ()) s).2 = .error () := by
  exact ⟨rfl, rfl, rfl, rfl⟩

end LogoutTheorems

namespace IbkrSessionManager

/-- Constant `MAX_REAUTH_ATTEMPTS` (part_021 line 12). -/
def MAX_REAUTH_ATTEMPTS : Nat := 3

/-- Constant `REAUTH_BACKOFF_MS` (part_021 line 13). -/
def REAUTH_BACKOFF_MS : Nat := 5000

/-- How a concluded re-authentication settles its blocked waiters: all
resolved with no value, or all rejected with an error. -/
inductive Settlement where
  | resolved
  | rejected (e : String)
deriving DecidableEq, Repr

/-- Retry loop of `triggerReauth` (part_021 lines 139-171), entered at a
given attempt number.  `login k` is the outcome of the k-th login call.
Returns the number of login calls made from this attempt on, the backoff
delays awaited between them, and how the waiters are settled.  The loop
body: try `login attempt`; on success return; on failure remember the error
and, when `attempt < MAX_REAUTH_ATTEMPTS`, wait `REAUTH_BACKOFF_MS * attempt`
and continue; after the loop reject with the last error (lines 173-181). -/
def reauthFrom (login : Nat → Except String Unit) (attempt : Nat) :
    Nat × List Nat × Settlement :=
  match login attempt with
  | .ok _ => (1, [], .resolved)
  | .error e =>
      if h : attempt < MAX_REAUTH_ATTEMPTS then
        let rest := reauthFrom login (attempt + 1)
        (rest.1 + 1, (REAUTH_BACKOFF_MS * attempt) :: rest.2.1, rest.2.2)
      else (1, [], .rejected e)
termination_by MAX_REAUTH_ATTEMPTS - attempt
decreasing_by omega

/-- Manager state relevant to `triggerReauth` and `waitForReauth`
(part_021 lines 25-30): the `reauthenticating` flag, the `stopped` flag,
whether `credentials` were stored, and the ordered list of pending
`waitForReauth` resolvers (identified by arrival number). -/
structure MgrState where
  reauthenticating : Bool := false
  stopped : Bool := false
  credentialsStored : Bool := false
  waiters : List Nat := []
deriving DecidableEq, Repr

/-- Observable effects of one `triggerReauth` invocation: how many login
calls were made, which backoff delays were awaited, how the run settled
(`none` when the guard made the call a no-op), and which waiters were
settled, in call order. -/
structure ReauthReport where
  loginCalls : Nat := 0
  delays : List Nat := []
  settled : Option Settlement := none
  settledWaiters : List Nat := []
deriving DecidableEq, Repr

/-- Method `triggerReauth` (part_021 lines 124-182), for a run that is not
interleaved with `stop()`: return unchanged when the flag is already set or
the manager is stopped (lines 125-127) or no credentials are stored (lines
129-132); otherwise set the flag, run active attempts, and at the single
conclusion point clear the flag and settle every pending waiter in call
order (lines 150-155 and 175-181). -/
def triggerReauth (login : Nat → Except String Unit) (st : MgrState) :
    MgrState × ReauthReport :=
  if st.reauthenticating || st.stopped then (st, {})
  else if !st.credentialsStored then (st, {})
  else
    let run := reauthFrom login 1
    ({ st with reauthenticating := false, waiters := [] },
     { loginCalls := run.1, delays := run.2.1, settled := some run.2.2,
       settledWaiters := st.waiters })

/-- Immediate outcome of a `waitForReauth` call. -/
inductive WaitOutcome where
  | resolvedNow
  | rejectedNow (msg : String)
  | suspended
deriving DecidableEq, Repr

/-- Method `waitForReauth` (part_021 lines 82-96): when no re-auth is in
flight, resolve at once if the session status is `authenticated`, else
throw at once naming the status; when a re-auth is in flight, enqueue the
caller's resolver at the end of the waiter list. -/
def waitForReauth (st : MgrState) (sessionStatus : SessionStatus)
    (newWaiter : Nat) : MgrState × WaitOutcome :=
  if !st.reauthenticating then
    if sessionStatus = .authenticated then (st, .resolvedNow)
    else (st, .rejectedNow ("Session not authenticated: " ++ sessionStatus.name))
  else ({ st with waiters := st.waiters ++ [newWaiter] }, .suspended)

/-- Events of the manager's cooperative scheduling, at the granularity of
its atomic (suspension-free) code sections.  `tick valid` is a heartbeat
tick whose body runs without interleaving (lines 99-114, with `valid` the
heartbeat result); `reauthCall` is a `triggerReauth` invocation reaching
its guard (lines 125-134 — guard check and flag set contain no `await`, so
they are one atomic step, however ticks interleave before the call);
`reauthEnd` is the single point where the in-flight run concludes and
clears the flag (lines 150 and 175); `stop` is `stop()` setting the
stopped flag (line 55); `wait` is a `waitForReauth` call. -/
inductive MgrEvent where
  | tick (valid : Bool)
  | reauthCall
  | reauthEnd (success : Bool)
  | wait
  | stop
deriving DecidableEq, Repr

/-- Instrumented scheduler state for the serialization claim: the manager's
flags plus a counter of re-authentication attempts currently in flight. -/
structure LoopState where
  reauthenticating : Bool := false
  stopped : Bool := false
  credentialsStored : Bool := true
  inFlight : Nat := 0
deriving DecidableEq, Repr

/-- Initial scheduler state: not re-authenticating, not stopped, no attempt
in flight (credentials stored by `start()`, part_021 line 39). -/
def mgrInit : LoopState := {}

/-- One atomic step of the manager.  A tick returns immediately when the
manager is stopped or a re-auth is in flight (lines 100-102); otherwise an
invalid heartbeat leads into `triggerReauth`, whose guard re-checks the
flag and the stopped flag (lines 125-127) and the stored credentials
(lines 129-132) before setting the flag (line 134) — only that transition
begins an attempt and increments the in-flight counter.  `reauthEnd`
clears the flag and decrements the counter (lines 150 and 175). -/
def mgrStep (s : LoopState) (e : MgrEvent) : LoopState :=
  match e with
  | .tick valid =>
      if s.stopped || s.reauthenticating then s
      else if valid then s
      else if !s.credentialsStored then s
      else { s with reauthenticating := true, inFlight := s.inFlight + 1 }
  | .reauthCall =>
      if s.reauthenticating || s.stopped then s
      else if !s.credentialsStored then s
      else { s with reauthenticating := true, inFlight := s.inFlight + 1 }
  | .reauthEnd _ =>
      if s.reauthenticating then
        { s with reauthenticating := false, inFlight := s.inFlight - 1 }
      else s
  | .wait => s
  | .stop => { s with stopped := true }

/-- The inductive invariant tying the instrumented counter to the boolean
guard: an attempt is in flight exactly while the flag is set. -/
def flightInv (s : LoopState) : Prop :=
  s.inFlight = if s.reauthenticating then 1 else 0

theorem mgrStep_flightInv (s : LoopState) (e : MgrEvent)
    (h : flightInv s) : flightInv (mgrStep s e) := by
  cases e with
  | tick valid =>
      simp only [flightInv, mgrStep] at h ⊢
      by_cases hs : s.stopped <;> by_cases hr : s.reauthenticating <;>
        cases valid <;> by_cases hc : s.credentialsStored <;>
        simp_all
  | reauthCall =>
      simp only [flightInv, mgrStep] at h ⊢
      by_cases hs : s.stopped <;> by_cases hr : s.reauthenticating <;>
        by_cases hc : s.credentialsStored <;> simp_all
  | reauthEnd success =>
      simp only [flightInv, mgrStep] at h ⊢
      by_cases hr : s.reauthenticating <;> simp_all
  | wait => exact h
  | stop =>
      simp only [flightInv, mgrStep] at h ⊢
      exact h

theorem foldl_flightInv (events : List MgrEvent) (s : LoopState)
    (h : flightInv s) : flightInv (events.foldl mgrStep s) := by
  induction events generalizing s with
  | nil => exact h
  | cons e rest ih => exact ih (mgrStep s e) (mgrStep_flightInv s e h)

end IbkrSessionManager

section SessionManagerTheorems

open IbkrSessionManager

/-- Claim C1: for every sequence of scheduler events, at most one
re-authentication attempt is in flight at any time; a heartbeat tick firing
while the flag is set or after `stop()` leaves the state untouched (skipped,
not queued); and a `triggerReauth` invocation with the flag already set acts
on nothing — the guard checks and sets the flag in one atomic,
suspension-free section. -/
theorem reauth_single_flight :
    (∀ events : List MgrEvent, (events.foldl mgrStep mgrInit).inFlight ≤ 1)
    ∧ (∀ (s : LoopState) (v : Bool), s.reauthenticating = true ∨ s.stopped = true →
        mgrStep s (.tick v) = s)
    ∧ (∀ s : LoopState, s.reauthenticating = true → mgrStep s .reauthCall = s) := by
  refine ⟨?_, ?_, ?_⟩
  · intro events
    have h := foldl_flightInv events mgrInit rfl
    rw [flightInv] at h
    rw [h]
    split <;> omega
  · intro s v h
    rcases h with h | h <;> simp [mgrStep, h]
  · intro s h
    simp [mgrStep, h]

/-- Witness for `reauth_single_flight`: a concrete trace of two invalid
ticks and an interleaved bare `triggerReauth` call keeps the in-flight
counter at one, and concrete guarded states are left untouched. -/
theorem reauth_single_flight_witness :
    (([MgrEvent.tick false, .reauthCall, .tick false,
        .reauthEnd false].foldl mgrStep mgrInit).inFlight ≤ 1)
    ∧ mgrStep { reauthenticating := true, inFlight := 1 } (.tick true)
        = { reauthenticating := true, inFlight := 1 }
    ∧ mgrStep { reauthenticating := true, inFlight := 1 } .reauthCall
        = { reauthenticating := true, inFlight := 1 } := by
  refine ⟨reauth_single_flight.1 _, ?_, ?_⟩
  · exact reauth_single_flight.2.1 _ true (Or.inl rfl)
  · exact reauth_single_flight.2.2 _ rfl

/-- Claim C6: a triggered re-authentication with stored credentials makes at
most 3 login calls with delays of 5s then 10s between consecutive attempts;
a success at attempt k makes exactly k calls, clears the flag and resolves
every blocked waiter in call order; three failures clear the flag and reject
every blocked waiter with the last error. -/
theorem triggerReauth_retry_policy (login : Nat → Except String Unit)
    (st : MgrState) (hr : st.reauthenticating = false)
    (hs : st.stopped = false) (hc : st.credentialsStored = true) :
    ((triggerReauth login st).1.reauthenticating = false
      ∧ (triggerReauth login st).1.waiters = []
      ∧ (triggerReauth login st).2.settledWaiters = st.waiters)
    ∧ (login 1 = .ok () → (triggerReauth login st).2 =
        { loginCalls := 1, delays := [], settled := some .resolved,
          settledWaiters := st.waiters })
    ∧ (∀ e1, login 1 = .error e1 → login 2 = .ok () →
        (triggerReauth login st).2 =
        { loginCalls := 2, delays := [5000], settled := some .resolved,
          settledWaiters := st.waiters })
    ∧ (∀ e1 e2, login 1 = .error e1 → login 2 = .error e2 → login 3 = .ok () →
        (triggerReauth login st).2 =
        { loginCalls := 3, delays := [5000, 10000], settled := some .resolved,
          settledWaiters := st.waiters })
    ∧ (∀ e1 e2 e3, login 1 = .error e1 → login 2 = .error e2 →
        login 3 = .error e3 →
        (triggerReauth login st).2 =
        { loginCalls := 3, delays := [5000, 10000],
          settled := some (.rejected e3), settledWaiters := st.waiters }) := by
  refine ⟨⟨?_, ?_, ?_⟩, ?_, ?_, ?_, ?_⟩
  · simp [triggerReauth, hr, hs, hc]
  · simp [triggerReauth, hr, hs, hc]
  · simp [triggerReauth, hr, hs, hc]
  · intro h1
    simp [triggerReauth, hr, hs, hc, reauthFrom, h1]
  · intro e1 h1 h2
    simp [triggerReauth, hr, hs, hc, reauthFrom, h1, h2,
      MAX_REAUTH_ATTEMPTS, REAUTH_BACKOFF_MS]
  · intro e1 e2 h1 h2 h3
    simp [triggerReauth, hr, hs, hc, reauthFrom, h1, h2, h3,
      MAX_REAUTH_ATTEMPTS, REAUTH_BACKOFF_MS]
  · intro e1 e2 e3 h1 h2 h3
    simp [triggerReauth, hr, hs, hc, reauthFrom, h1, h2, h3,
      MAX_REAUTH_ATTEMPTS, REAUTH_BACKOFF_MS]

/-- Witness for `triggerReauth_retry_policy`: two failures then a success
makes exactly 3 login calls with delays 5s and 10s, and both recorded
waiters are resolved in call order. -/
theorem triggerReauth_retry_policy_witness :
    (triggerReauth
      (fun n => if n ≤ 2 then .error "boom" else .ok ())
      { credentialsStored := true, waiters := [1, 2] }).2 =
    { loginCalls := 3, delays := [5000, 10000], settled := some .resolved,
      settledWaiters := [1, 2] } := by
  exact (triggerReauth_retry_policy
    (fun n => if n ≤ 2 then .error "boom" else .ok ())
    { credentialsStored := true, waiters := [1, 2] }
    rfl rfl rfl).2.2.2.1 "boom" "boom" rfl rfl rfl

/-- Claim C7: a `waitForReauth` call made while no re-authentication is in
flight resolves immediately when the session status is `authenticated`
(leaving the state untouched — no re-auth is started), and for any other
status rejects immediately with an error naming that status. -/
theorem waitForReauth_no_flight (st : MgrState) (status : SessionStatus)
    (w : Nat) (hr : st.reauthenticating = false) :
    (status = .authenticated → waitForReauth st status w = (st, .resolvedNow))
    ∧ (status ≠ .authenticated → waitForReauth st status w =
        (st, .rejectedNow ("Session not authenticated: " ++ status.name))) := by
  constructor
  · intro h
    simp [waitForReauth, hr, h]
  · intro h
    simp [waitForReauth, hr, h]

/-- Witness for `waitForReauth_no_flight`: with status `expired` and no
re-auth in flight the call rejects at once, naming the status. -/
theorem waitForReauth_no_flight_witness :
    waitForReauth {} .expired 0 =
      ({}, .rejectedNow "Session not authenticated: expired")
    ∧ waitForReauth {} .authenticated 0 = ({}, .resolvedNow) := by
  constructor
  · exact (waitForReauth_no_flight {} .expired 0 rfl).2 (by decide)
  · exact (waitForReauth_no_flight {} .authenticated 0 rfl).1 rfl

end SessionManagerTheorems

namespace IbkrGatewayManager

/-- Gateway status enum (`GatewayStatus`, src/src/domain/gateway). -/
inductive GatewayStatus where
  | stopped
  | starting
  | running
  | unhealthy
  | stopping
deriving DecidableEq, Repr

/-- Constant `MAX_RESTART_ATTEMPTS` (ibkr-gateway-manager.ts line 6). -/
def MAX_RESTART_ATTEMPTS : Nat := 5

/-- Constant `RESTART_DELAY_MS` (ibkr-gateway-manager.ts line 7). -/
def RESTART_DELAY_MS : Nat := 5000

/-- Supervisor state relevant to crash recovery: the gateway status, the
restart counter (`gateway.process.restartCount`), and whether a restart
timer is pending (`restartTimeout`). -/
structure GwState where
  status : GatewayStatus
  restartCount : Nat
  restartScheduled : Bool
deriving DecidableEq, Repr

/-- Method `handleUnexpectedExit` (ibkr-gateway-manager.ts lines 276-294):
set status `unhealthy`; if the restart counter has already reached
`MAX_RESTART_ATTEMPTS`, give up and set status `stopped` (no restart is
scheduled); otherwise schedule a restart after `RESTART_DELAY_MS`.  Note
the counter is compared before being incremented — the increment happens
inside `restart()` (line 82), not here. -/
def handleUnexpectedExit (g : GwState) : GwState :=
  let g1 := { g with status := GatewayStatus.unhealthy }
  if g1.restartCount ≥ MAX_RESTART_ATTEMPTS then
    { g1 with status := GatewayStatus.stopped }
  else
    { g1 with restartScheduled := true }

/-- Method `restart` (ibkr-gateway-manager.ts lines 80-85) as fired by the
pending restart timer, for a `start()` that succeeds: `stop()` drives
through `stopping` to `stopped`, the counter is incremented, and `start()`
brings the status back to `running`. -/
def restart (g : GwState) : GwState :=
  { status := GatewayStatus.running, restartCount := g.restartCount + 1,
    restartScheduled := false }

/-- One unhealthy/crash cycle in a run where the gateway keeps failing: the
exit handler only runs while the status is `running` (line 233, and the
health-check path returns early otherwise, line 298); when it scheduled a
restart, the 5s timer then fires `restart()`. -/
def crashCycle (g : GwState) : GwState :=
  if g.status = GatewayStatus.running then
    let g1 := handleUnexpectedExit g
    if g1.restartScheduled then restart g1 else g1
  else g

/-- Supervisor state after the initial successful `start()`: running,
restart counter zero (set at construction, line 36), no timer pending. -/
def gwInit : GwState :=
  { status := GatewayStatus.running, restartCount := 0, restartScheduled := false }

/-- State after `n` consecutive unhealthy/crash cycles from a fresh
supervisor. -/
def crashCycles : Nat → GwState
  | 0 => gwInit
  | n + 1 => crashCycle (crashCycles n)

/-- Whether the handler schedules a restart during cycle `n + 1` (acting on
the state left by `n` cycles). -/
def schedulesInCycle (n : Nat) : Bool :=
  let g := crashCycles n
  if g.status = GatewayStatus.running then
    (handleUnexpectedExit g).restartScheduled
  else false

/-- The terminal supervisor state: stopped, counter exhausted, no timer. -/
def gwTerminal : GwState :=
  { status := GatewayStatus.stopped, restartCount := MAX_RESTART_ATTEMPTS,
    restartScheduled := false }

theorem crashCycle_gwTerminal : crashCycle gwTerminal = gwTerminal := by
  decide

theorem crashCycles_six_add (k : Nat) : crashCycles (6 + k) = gwTerminal := by
  induction k with
  | zero => decide
  | succ k ih =>
      have : 6 + (k + 1) = (6 + k) + 1 := by omega
      rw [this, crashCycles, ih, crashCycle_gwTerminal]

end IbkrGatewayManager

section GatewayTheorems

open IbkrGatewayManager

/-- Claim C8, counterexample: after exactly 5 consecutive unhealthy/crash
cycles the supervisor is not stopped — the counter is checked before it is
incremented, so a fifth restart is scheduled during the fifth cycle (while
the counter reads 4) and executes, leaving the status `running` with the
counter at 5. -/
theorem supervisor_not_stopped_after_five :
    crashCycles 5 =
      { status := GatewayStatus.running, restartCount := 5,
        restartScheduled := false }
    ∧ (crashCycles 5).status ≠ GatewayStatus.stopped
    ∧ schedulesInCycle 4 = true := by
  refine ⟨by decide, by decide, by decide⟩

/-- Claim C8, amended: on each unexpected exit or failed health check a
restart is scheduled after the fixed 5s delay only while the restart
counter (compared before its increment, which happens inside `restart()`)
is below the maximum of 5 — so restarts are scheduled exactly during the
first five cycles and the counter never exceeds 5; from the sixth
consecutive unhealthy/crash cycle on, no restart is scheduled and the
status stabilizes permanently at `stopped`. -/
theorem supervisor_restart_exhaustion (n : Nat) :
    (crashCycles n).restartCount = min n 5
    ∧ schedulesInCycle n = decide (n < 5)
    ∧ (6 ≤ n → crashCycles n = gwTerminal)
    ∧ (crashCycles n).restartCount ≤ 5 := by
  rcases Nat.lt_or_ge n 6 with h | h
  · interval_cases n <;> refine ⟨by decide, by decide, by omega, by decide⟩
  · obtain ⟨k, rfl⟩ : ∃ k, n = 6 + k := ⟨n - 6, by omega⟩
    have ht := crashCycles_six_add k
    have ht1 : crashCycles (6 + k + 1) = gwTerminal := by
      have : 6 + k + 1 = 6 + (k + 1) := by omega
      rw [this, crashCycles_six_add]
    refine ⟨?_, ?_, fun _ => ht, ?_⟩
    · rw [ht]
      simp [gwTerminal, MAX_RESTART_ATTEMPTS]
      omega
    · rw [schedulesInCycle, ht]
      simp [gwTerminal]
      omega
    · rw [ht]
      decide

/-- Witness for `supervisor_restart_exhaustion` at six cycles: the status is
`stopped`, the counter is 5, and no restart is scheduled. -/
theorem supervisor_restart_exhaustion_witness :
    crashCycles 6 = gwTerminal ∧ schedulesInCycle 6 = false := by
  refine ⟨(supervisor_restart_exhaustion 6).2.2.1 (by omega), ?_⟩
  have h := (supervisor_restart_exhaustion 6).2.1
  rw [h]
  decide

end GatewayTheorems

namespace IbkrAuthService

/-- Error codes of `AuthenticationError` (ibkr-auth-service.ts lines 21-36). -/
inductive AuthCode where
  | NOT_CONNECTED
  | SESSION_INIT_FAILED
  | COMPETING_SESSION
  | TOTP_REQUIRED
  | TOTP_FAILED
  | HEADLESS_LOGIN_FAILED
  | UNKNOWN
deriving DecidableEq, Repr

/-- An error escaping a login stage: a typed `AuthenticationError`, or a
generic (non-`AuthenticationError`) exception such as a transport error
from the gateway client. -/
inductive LoginError where
  | auth (code : AuthCode)
  | generic
deriving DecidableEq, Repr

/-- Wire shape behind `checkAuthStatus` (`AuthStatusResponse` fields are all
optional on the wire, src/unnamed/part_026). -/
structure AuthStatusRaw where
  connected : Option Bool := none
  authenticated : Option Bool := none
  competing : Option Bool := none
deriving DecidableEq, Repr

/-- Normalized auth status as produced by `checkAuthStatus`
(ibkr-auth-service.ts lines 161-170): booleans defaulted to false. -/
structure AuthStatusResponse where
  connected : Bool
  authenticated : Bool
  competing : Bool
deriving DecidableEq, Repr

/-- Method `checkAuthStatus` normalization (lines 163-169). -/
def checkAuthStatus (raw : AuthStatusRaw) : AuthStatusResponse :=
  { connected := raw.connected.getD false
    authenticated := raw.authenticated.getD false
    competing := raw.competing.getD false }

/-- Record `SsoInitResponse` (src/unnamed/part_026). -/
structure SsoInitResponse where
  authenticated : Option Bool := none
  competing : Option Bool := none
  connected : Option Bool := none
  challenge : Option String := none
deriving DecidableEq, Repr

/-- Record `TotpChallengeResponse` (src/unnamed/part_027). -/
structure TotpChallengeResponse where
  authenticated : Option Bool := none
deriving DecidableEq, Repr

/-- Result of the injected headless login capability
(`HeadlessLoginProvider.login`, ibkr-auth-service.ts lines 38-45). -/
structure BrowserLoginResult where
  success : Bool
  requiresManualIntervention : Option Bool := none
deriving DecidableEq, Repr

/-- Injected outcomes of every external call `login` can make, plus the
resolved TOTP secret (`credentials.totpSecret ?? this.totpSecret?.secret`,
line 76) and the code the TOTP generator would produce. -/
structure LoginEnv where
  initialStatus : Except Unit AuthStatusRaw
  browser : Except Unit BrowserLoginResult
  verify1 : Except Unit AuthStatusRaw
  verify2 : Except Unit AuthStatusRaw
  ssoInit : Except Unit SsoInitResponse
  submitResp : Except Unit TotpChallengeResponse
  retryStatus : Except Unit AuthStatusRaw
  currentTotpSecret : Option String
  generatedCode : String

/-- JavaScript falsiness of an optional string (absent or empty). -/
def strFalsy : Option String → Bool
  | none => true
  | some s => s.isEmpty

/-- Method `isTotpChallenge` (lines 203-205):
`!response.authenticated && response.challenge !== undefined &&
response.challenge.length > 0`. -/
def isTotpChallenge (r : SsoInitResponse) : Bool :=
  !(r.authenticated.getD false) &&
    (match r.challenge with
     | some c => decide (0 < c.length)
     | none => false)

/-- Patch applied by every success path:
`{ status: 'authenticated', authenticatedAt: new Date() }`. -/
def authSuccessPatch (now : Int) : SessionPatch :=
  { status := some .authenticated, authenticatedAt := some now }

/-- Method `handleTotpChallenge` (lines 206-220): mark `awaiting_totp`; fail
with TOTP_REQUIRED when no secret is configured (JS falsiness); fail with
TOTP_FAILED when the generated code is falsy; otherwise submit the computed
response (`submitTotpResponse`, lines 229-237): a truthy `authenticated`
marks the session authenticated, anything else fails with TOTP_FAILED; a
throwing POST propagates as a generic error. -/
def handleTotpChallenge (env : LoginEnv) (_challenge : String) (s : Session)
    (now : Int) : Session × Except LoginError Unit :=
  let s1 := updateSession s { status := some .awaiting_totp }
  if strFalsy env.currentTotpSecret then
    (s1, .error (.auth .TOTP_REQUIRED))
  else if env.generatedCode.isEmpty then
    (s1, .error (.auth .TOTP_FAILED))
  else
    match env.submitResp with
    | .error _ => (s1, .error .generic)
    | .ok result =>
        if result.authenticated.getD false then
          (updateSession s1 (authSuccessPatch now), .ok ())
        else
          (s1, .error (.auth .TOTP_FAILED))

/-- Status verification after browser login (lines 116-122): probe once,
and on a thrown probe retry once; a second throw propagates. -/
def verifyStatus (env : LoginEnv) : Except Unit AuthStatusRaw :=
  match env.verify1 with
  | .ok raw => .ok raw
  | .error _ => env.verify2

/-- The `try` block of the SSO-init fallback (lines 131-139): initialize the
brokerage session; a truthy `authenticated` finishes authenticated; a
pending challenge goes to the TOTP handler; otherwise SESSION_INIT_FAILED;
a throwing POST propagates as a generic error. -/
def ssoTry (env : LoginEnv) (now : Int) (s : Session) :
    Session × Except LoginError Unit :=
  match env.ssoInit with
  | .error _ => (s, .error .generic)
  | .ok ir =>
      if ir.authenticated.getD false then
        (updateSession s (authSuccessPatch now), .ok ())
      else if isTotpChallenge ir then
        handleTotpChallenge env (ir.challenge.getD "") s now
      else
        (s, .error (.auth .SESSION_INIT_FAILED))

/-- The SSO-init fallback with its `catch (initError)` (lines 130-147): on
any failure of the `try` block, re-probe the status; if authenticated the
failure is swallowed and the session marked authenticated; if the re-probe
itself throws, that error propagates; otherwise the original `initError`
is rethrown. -/
def ssoFallback (env : LoginEnv) (now : Int) (s : Session) :
    Session × Except LoginError Unit :=
  match ssoTry env now s with
  | (s2, .ok _) => (s2, .ok ())
  | (s2, .error initError) =>
      match env.retryStatus with
      | .error _ => (s2, .error .generic)
      | .ok raw2 =>
          if (checkAuthStatus raw2).authenticated then
            (updateSession s2 (authSuccessPatch now), .ok ())
          else
            (s2, .error initError)

/-- Login continuation after the initial probe found no session (lines
90-149): browser login; on a failed result set `disconnected` and raise
TOTP_REQUIRED (requires-manual-intervention) or HEADLESS_LOGIN_FAILED;
otherwise verify the session, short-circuit on authenticated, raise
COMPETING_SESSION on a competing report, else fall back to SSO init. -/
def afterProbe (env : LoginEnv) (now : Int) (s : Session) :
    Session × Except LoginError Unit :=
  match env.browser with
  | .error _ => (s, .error .generic)
  | .ok lr =>
      if !lr.success then
        let s2 := updateSession s { status := some .disconnected }
        if lr.requiresManualIntervention.getD false then
          (s2, .error (.auth .TOTP_REQUIRED))
        else
          (s2, .error (.auth .HEADLESS_LOGIN_FAILED))
      else
        match verifyStatus env with
        | .error _ => (s, .error .generic)
        | .ok raw =>
            let fs := checkAuthStatus raw
            if fs.authenticated then
              (updateSession s (authSuccessPatch now), .ok ())
            else if fs.competing then
              (s, .error (.auth .COMPETING_SESSION))
            else
              ssoFallback env now s

/-- Body of the outer `try` of `login` (lines 78-149): the initial status
probe has its own `try` whose errors are swallowed (lines 80-89); an
already-authenticated session short-circuits to success. -/
def loginBody (env : LoginEnv) (now : Int) (s : Session) :
    Session × Except LoginError Unit :=
  match env.initialStatus with
  | .ok raw =>
      if (checkAuthStatus raw).authenticated then
        (updateSession s (authSuccessPatch now), .ok ())
      else afterProbe env now s
  | .error _ => afterProbe env now s

/-- Method `IbkrAuthService.login` (lines 74-158): set `authenticating`,
run the body, and in the outer `catch` rethrow `AuthenticationError`s
unchanged while any other error first resets the status to `disconnected`
and is wrapped as UNKNOWN (lines 150-157). -/
def login (env : LoginEnv) (now : Int) (s0 : Session) :
    Session × Except LoginError Unit :=
  let s := updateSession s0 { status := some .authenticating }
  match loginBody env now s with
  | (sb, .ok _) => (sb, .ok ())
  | (sb, .error (.auth c)) => (sb, .error (.auth c))
  | (sb, .error .generic) =>
      (updateSession sb { status := some .disconnected },
       .error (.auth .UNKNOWN))

end IbkrAuthService


namespace IbkrAuthService

theorem handleTotp_cases (env : LoginEnv) (c : String) (s : Session) (now : Int) :
    ((handleTotpChallenge env c s now).2 = .ok () →
        (handleTotpChallenge env c s now).1.status = .authenticated)
    ∧ (∀ e, (handleTotpChallenge env c s now).2 = .error e →
        (handleTotpChallenge env c s now).1.status = .awaiting_totp
        ∧ (e = .auth .TOTP_REQUIRED ∨ e = .auth .TOTP_FAILED ∨ e = .generic)) := by
  unfold handleTotpChallenge
  by_cases h1 : strFalsy env.currentTotpSecret
  · simp [h1, updateSession]
  · by_cases h2 : env.generatedCode.isEmpty
    · simp [h1, h2, updateSession]
    · rcases hs : env.submitResp with e | r
      · simp [h1, h2, hs, updateSession]
      · by_cases h3 : r.authenticated.getD false
        · simp [h1, h2, hs, h3, updateSession, authSuccessPatch]
        · simp [h1, h2, hs, h3, updateSession]

theorem ssoTry_error_status (env : LoginEnv) (now : Int) (s : Session) :
    ∀ e, (ssoTry env now s).2 = .error e →
      (e = .auth .SESSION_INIT_FAILED → (ssoTry env now s).1.status = s.status)
      ∧ ((e = .auth .TOTP_FAILED ∨ e = .auth .TOTP_REQUIRED) →
          (ssoTry env now s).1.status = .awaiting_totp)
      ∧ (e = .auth .COMPETING_SESSION ∨ e = .auth .HEADLESS_LOGIN_FAILED
          ∨ e = .auth .UNKNOWN ∨ e = .auth .NOT_CONNECTED → False) := by
  intro e he
  rcases hi : env.ssoInit with u | ir
  · simp only [ssoTry, hi] at he ⊢
    simp at he
    subst he
    simp
  · simp only [ssoTry, hi] at he ⊢
    by_cases ha : ir.authenticated.getD false
    · simp [ha] at he
    · by_cases hc : isTotpChallenge ir
      · simp only [ha, Bool.false_eq_true, if_false, hc, if_true] at he ⊢
        have h := (handleTotp_cases env (ir.challenge.getD "") s now).2 e he
        refine ⟨?_, fun _ => h.1, ?_⟩
        · intro hcode
          subst hcode
          rcases h.2 with h' | h' | h' <;> simp at h'
        · intro hcode
          rcases hcode with hc' | hc' | hc' | hc' <;> subst hc' <;>
            rcases h.2 with h' | h' | h' <;> simp at h'
      · simp only [ha, Bool.false_eq_true, if_false, hc, if_false] at he ⊢
        simp at he
        subst he
        simp

theorem ssoFallback_error_status (env : LoginEnv) (now : Int) (s : Session) :
    ∀ e, (ssoFallback env now s).2 = .error e →
      (e = .auth .SESSION_INIT_FAILED → (ssoFallback env now s).1.status = s.status)
      ∧ ((e = .auth .TOTP_FAILED ∨ e = .auth .TOTP_REQUIRED) →
          (ssoFallback env now s).1.status = .awaiting_totp)
      ∧ (e = .auth .COMPETING_SESSION ∨ e = .auth .HEADLESS_LOGIN_FAILED
          ∨ e = .auth .UNKNOWN ∨ e = .auth .NOT_CONNECTED → False) := by
  intro e he
  rcases htry : ssoTry env now s with ⟨s2, r⟩
  rcases r with initError | u
  · simp only [ssoFallback, htry] at he ⊢
    rcases hr : env.retryStatus with u | raw2
    · simp only [hr] at he ⊢
      simp at he
      subst he
      simp
    · simp only [hr] at he ⊢
      by_cases hauth : (checkAuthStatus raw2).authenticated
      · simp [hauth] at he
      · simp only [hauth, Bool.false_eq_true, if_false] at he ⊢
        simp at he
        have h := ssoTry_error_status env now s initError (by rw [htry])
        rw [htry] at h
        simp only at h
        subst he
        exact h
  · simp only [ssoFallback, htry] at he
    simp at he

theorem afterProbe_error_status (env : LoginEnv) (now : Int) (s : Session) :
    ∀ e, (afterProbe env now s).2 = .error e →
      (e = .auth .HEADLESS_LOGIN_FAILED →
          (afterProbe env now s).1.status = .disconnected)
      ∧ (e = .auth .COMPETING_SESSION → (afterProbe env now s).1.status = s.status)
      ∧ (e = .auth .SESSION_INIT_FAILED → (afterProbe env now s).1.status = s.status)
      ∧ (e = .auth .TOTP_FAILED → (afterProbe env now s).1.status = .awaiting_totp)
      ∧ (e = .auth .TOTP_REQUIRED →
          ((∃ lr, env.browser = .ok lr ∧ lr.success = false) →
              (afterProbe env now s).1.status = .disconnected)
          ∧ ((∀ lr, env.browser = .ok lr → lr.success = true) →
              (afterProbe env now s).1.status = .awaiting_totp))
      ∧ ((e = .auth .UNKNOWN ∨ e = .auth .NOT_CONNECTED) → False) := by
  intro e he
  rcases hb : env.browser with u | lr
  · simp only [afterProbe, hb] at he ⊢
    simp at he
    subst he
    simp
  · simp only [afterProbe, hb] at he ⊢
    by_cases hsucc : lr.success
    · simp only [hsucc, Bool.not_true, Bool.false_eq_true, if_false] at he ⊢
      rcases hv : verifyStatus env with u | raw
      · simp only [hv] at he ⊢
        simp at he
        subst he
        simp
      · simp only [hv] at he ⊢
        by_cases hauth : (checkAuthStatus raw).authenticated
        · simp [hauth] at he
        · by_cases hcomp : (checkAuthStatus raw).competing
          · simp only [hauth, Bool.false_eq_true, if_false, hcomp, if_true] at he ⊢
            simp at he
            subst he
            simp
          · simp only [hauth, hcomp, Bool.false_eq_true, if_false] at he ⊢
            have h := ssoFallback_error_status env now s e he
            refine ⟨fun hc => absurd (h.2.2 (by simp [hc])) id,
              fun hc => absurd (h.2.2 (by simp [hc])) id,
              fun hc => h.1 hc,
              fun hc => h.2.1 (Or.inl hc),
              ?_,
              fun hc => h.2.2 (by tauto)⟩
            intro hc
            constructor
            · rintro ⟨lr', hlr', hfalse⟩
              simp_all
            · intro _
              exact h.2.1 (Or.inr hc)
    · simp only [Bool.not_eq_true] at hsucc
      simp only [hsucc, Bool.not_false, if_true] at he ⊢
      by_cases hman : lr.requiresManualIntervention.getD false
      · simp only [hman, if_true] at he ⊢
        simp at he
        subst he
        refine ⟨by simp, by simp, by simp, by simp, ?_, by simp⟩
        intro _
        refine ⟨fun _ => by simp [updateSession], ?_⟩
        intro hall
        have htrue := hall lr rfl
        rw [hsucc] at htrue
        exact absurd htrue (by simp)
      · simp only [hman, Bool.false_eq_true, if_false] at he ⊢
        simp at he
        subst he
        refine ⟨fun _ => by simp [updateSession], by simp, by simp, by simp,
          by simp, by simp⟩

theorem loginBody_error_status (env : LoginEnv) (now : Int) (s : Session) :
    ∀ e, (loginBody env now s).2 = .error e →
      (e = .auth .HEADLESS_LOGIN_FAILED →
          (loginBody env now s).1.status = .disconnected)
      ∧ (e = .auth .COMPETING_SESSION → (loginBody env now s).1.status = s.status)
      ∧ (e = .auth .SESSION_INIT_FAILED → (loginBody env now s).1.status = s.status)
      ∧ (e = .auth .TOTP_FAILED → (loginBody env now s).1.status = .awaiting_totp)
      ∧ (e = .auth .TOTP_REQUIRED →
          ((∃ lr, env.browser = .ok lr ∧ lr.success = false) →
              (loginBody env now s).1.status = .disconnected)
          ∧ ((∀ lr, env.browser = .ok lr → lr.success = true) →
              (loginBody env now s).1.status = .awaiting_totp))
      ∧ ((e = .auth .UNKNOWN ∨ e = .auth .NOT_CONNECTED) → False) := by
  intro e he
  rcases hi : env.initialStatus with u | raw
  · simp only [loginBody, hi] at he ⊢
    exact afterProbe_error_status env now s e he
  · simp only [loginBody, hi] at he ⊢
    by_cases hauth : (checkAuthStatus raw).authenticated
    · simp [hauth] at he
    · simp only [hauth, Bool.false_eq_true, if_false] at he ⊢
      exact afterProbe_error_status env now s e he

end IbkrAuthService

section LoginTheorems

open IbkrAuthService

/-- Claim C10: the session status left behind by a failed `login()` depends
on the failure stage — a browser-login-stage failure (HEADLESS_LOGIN_FAILED,
or TOTP_REQUIRED from a requires-manual-intervention result) and any
unanticipated error wrapped as UNKNOWN reset the status to `disconnected`
before the error is raised, while COMPETING_SESSION, SESSION_INIT_FAILED,
TOTP_FAILED, and TOTP_REQUIRED from a missing seed during a challenge are
rethrown without a reset, leaving `authenticating` or `awaiting_totp`. -/
theorem login_error_status (env : LoginEnv) (now : Int) (s0 : Session) :
    ((login env now s0).2 = .error (.auth .HEADLESS_LOGIN_FAILED) →
        (login env now s0).1.status = .disconnected)
    ∧ ((login env now s0).2 = .error (.auth .UNKNOWN) →
        (login env now s0).1.status = .disconnected)
    ∧ ((login env now s0).2 = .error (.auth .COMPETING_SESSION) →
        (login env now s0).1.status = .authenticating)
    ∧ ((login env now s0).2 = .error (.auth .SESSION_INIT_FAILED) →
        (login env now s0).1.status = .authenticating)
    ∧ ((login env now s0).2 = .error (.auth .TOTP_FAILED) →
        (login env now s0).1.status = .awaiting_totp)
    ∧ ((login env now s0).2 = .error (.auth .TOTP_REQUIRED) →
        ((∃ lr, env.browser = .ok lr ∧ lr.success = false) →
            (login env now s0).1.status = .disconnected)
        ∧ ((∀ lr, env.browser = .ok lr → lr.success = true) →
            (login env now s0).1.status = .awaiting_totp)) := by
  have hs : (updateSession s0 { status := some .authenticating }).status
      = .authenticating := by
    simp [updateSession]
  rcases hb : loginBody env now (updateSession s0 { status := some .authenticating })
    with ⟨sb, r⟩
  rcases r with err | u
  · rcases err with c | _
    · have h := loginBody_error_status env now
        (updateSession s0 { status := some .authenticating })
        (LoginError.auth c) (by rw [hb])
      rw [hb] at h
      simp only at h
      simp only [login, hb]
      refine ⟨?_, ?_, ?_, ?_, ?_, ?_⟩
      · intro hx
        simp at hx
        subst hx
        exact h.1 rfl
      · intro hx
        simp at hx
        subst hx
        exact absurd (h.2.2.2.2.2 (Or.inl rfl)) id
      · intro hx
        simp at hx
        subst hx
        exact (h.2.1 rfl).trans hs
      · intro hx
        simp at hx
        subst hx
        exact (h.2.2.1 rfl).trans hs
      · intro hx
        simp at hx
        subst hx
        exact h.2.2.2.1 rfl
      · intro hx
        simp at hx
        subst hx
        exact ⟨(h.2.2.2.2.1 rfl).1, (h.2.2.2.2.1 rfl).2⟩
    · simp only [login, hb]
      refine ⟨?_, ?_, ?_, ?_, ?_, ?_⟩
      · intro hx
        simp at hx
      · intro _
        simp [updateSession]
      · intro hx
        simp at hx
      · intro hx
        simp at hx
      · intro hx
        simp at hx
      · intro hx
        simp at hx
  · simp only [login, hb]
    refine ⟨?_, ?_, ?_, ?_, ?_, ?_⟩ <;> intro hx <;> simp at hx

/-- Environment where the browser login fails with a
requires-manual-intervention result. -/
def envManualTotp : LoginEnv :=
  { initialStatus := .error ()
    browser := .ok { success := false, requiresManualIntervention := some true }
    verify1 := .error ()
    verify2 := .error ()
    ssoInit := .error ()
    submitResp := .error ()
    retryStatus := .error ()
    currentTotpSecret := none
    generatedCode := "" }

/-- Environment where the browser login succeeds, verification finds neither
authentication nor competition, the SSO init answers with a challenge, and
no TOTP seed is configured; the retry probe stays unauthenticated. -/
def envChallengeNoSeed : LoginEnv :=
  { initialStatus := .ok {}
    browser := .ok { success := true }
    verify1 := .ok {}
    verify2 := .error ()
    ssoInit := .ok { challenge := some "deadbeef" }
    submitResp := .error ()
    retryStatus := .ok {}
    currentTotpSecret := none
    generatedCode := "" }

/-- Witness for `login_error_status`: both TOTP_REQUIRED sources at concrete
environments — the browser-stage one leaves `disconnected`, the
missing-seed-during-challenge one leaves `awaiting_totp`. -/
theorem login_error_status_witness :
    (login envManualTotp 0 { status := .disconnected }).1.status = .disconnected
    ∧ (login envChallengeNoSeed 0 { status := .disconnected }).1.status
        = .awaiting_totp := by
  constructor
  · exact ((login_error_status envManualTotp 0
      { status := .disconnected }).2.2.2.2.2 rfl).1
      ⟨{ success := false, requiresManualIntervention := some true }, rfl, rfl⟩
  · refine ((login_error_status envChallengeNoSeed 0
      { status := .disconnected }).2.2.2.2.2 rfl).2 ?_
    intro lr h
    injection h with h2
    subst h2
    rfl

end LoginTheorems
